import Mathlib

/-!
Shallow embedding of `src/SmartContracts/WorksetOwnershipContract.py`
(repository SamuraiBuddha/RevitBlockchain).

Modelling conventions, chosen once for the whole file:

* Python `datetime` values (always UTC in the source) are modelled by their
  microsecond count since the epoch, as an `Int`.  `datetime.utcnow()` is an
  external clock, so every operation that calls it takes an explicit `now`
  argument.  `isoformat` and `fromisoformat` are mutually inverse bijections
  between datetimes and the ISO strings the source stores, so a stored ISO
  string is modelled by the underlying time value itself; comparisons and
  round-trips are preserved exactly.
* `hashlib.sha256(...).hexdigest()[:16]` is an external collaborator (Python
  stdlib, not code of this repository); the spec treats it as a one-way token
  generator used only for id derivation.  It is modelled by `sha256hex16`, an
  executable placeholder returning its input, which preserves everything the
  contract logic observes about it (it is a deterministic function of the
  input string).
* Python dicts are modelled by association lists (`List (String × α)`) with
  first-match lookup; assignment to an existing key keeps its position,
  assignment to a fresh key appends, matching insertion-ordered dicts.
* Each method returns `(result, newState)`; Python result dicts
  `{"success": true, ...}` / `{"success": false, "error": msg}` become
  `Except String payload` with the exact message strings of the source.
* The two kinds of entries appended to `ownership_history` are Python dicts
  with differing key sets, so they are modelled as key/value lists
  (`List (String × LogValue)`), mirroring the dict literals in the source.
-/

namespace RevitBlockchain

/-- Workset metadata record, as built by `register_workset` (source lines
43-49). -/
structure Metadata where
  name : String
  document_guid : String
  registered_at : Int
  is_editable : Bool
  last_modified : Int
deriving Repr, DecidableEq

/-- A borrow request record, as built by `request_borrow` (source lines
136-145).  `approved_at` and `expires_at` are keys added only by
`approve_borrow`, hence `Option`. -/
structure BorrowRequest where
  request_id : String
  workset_id : String
  element_ids : List String
  borrower : String
  owner : String
  reason : String
  requested_at : Int
  status : String
  approved_at : Option Int := none
  expires_at : Option Int := none
deriving Repr, DecidableEq

/-- An active borrow record, as built by `approve_borrow` (source lines
188-194). -/
structure ActiveBorrow where
  borrower : String
  element_ids : List String
  borrowed_at : Int
  expires_at : Int
  request_id : String
deriving Repr, DecidableEq

/-- Values stored in ownership-history entries (Python dict values of mixed
type: strings, ISO timestamps, a metadata sub-dict, or `None`). -/
inductive LogValue where
  | str (s : String)
  | timeVal (t : Int)
  | meta (m : Metadata)
  | nullVal
deriving Repr, DecidableEq

/-- One ownership-history entry: a Python dict, modelled as a key/value
list. -/
abbrev LogEntry := List (String × LogValue)

/-- An entry of the list returned by `check_expired_borrows` (source lines
260-265). -/
structure ExpiredEntry where
  workset_id : String
  borrower : String
  element_ids : List String
  expired_at : Int
deriving Repr, DecidableEq

/-- The whole contract state: the six `self.*` state variables plus the two
settings of `__init__` (source lines 15-26). -/
structure ContractState where
  workset_owners : List (String × String)
  workset_metadata : List (String × Metadata)
  borrow_requests : List BorrowRequest
  borrow_history : List BorrowRequest
  ownership_history : List LogEntry
  active_borrows : List (String × List ActiveBorrow)
  borrow_timeout_hours : Int
  max_concurrent_borrows : Nat
deriving Repr, DecidableEq

/-- `WorksetOwnershipContract.__init__`: empty maps and lists, 24-hour borrow
timeout, ceiling of 10 concurrent borrows. -/
def ContractState.init : ContractState :=
  { workset_owners := []
    workset_metadata := []
    borrow_requests := []
    borrow_history := []
    ownership_history := []
    active_borrows := []
    borrow_timeout_hours := 24
    max_concurrent_borrows := 10 }

/-- Dict lookup: first binding of the key, if any. -/
def alLookup (k : String) : List (String × α) → Option α
  | [] => none
  | (k', v) :: rest => if k = k' then some v else alLookup k rest

/-- Dict assignment `d[k] = v`: overwrite in place if the key is present,
append otherwise. -/
def alUpdate (k : String) (v : α) : List (String × α) → List (String × α)
  | [] => [(k, v)]
  | (k', v') :: rest =>
    if k = k' then (k, v) :: rest else (k', v') :: alUpdate k v rest

/-- Dict update of an existing key's value (`d[k]["field"] = ...`); a missing
key is left alone (the source only does this on keys it has just checked). -/
def alModify (k : String) (f : α → α) : List (String × α) → List (String × α)
  | [] => []
  | (k', v') :: rest =>
    if k = k' then (k, f v') :: rest else (k', v') :: alModify k f rest

/-- Dict deletion `del d[k]`: drop the first binding of the key. -/
def alErase (k : String) : List (String × α) → List (String × α)
  | [] => []
  | (k', v') :: rest => if k = k' then rest else (k', v') :: alErase k rest

/-- Did an operation succeed (Python result dict's `success` field)? -/
def isOk : Except String α → Bool
  | Except.ok _ => true
  | Except.error _ => false

/-- `hashlib.sha256(data.encode()).hexdigest()[:16]` — external hash,
modelled as an executable placeholder (see the file header). -/
def sha256hex16 (data : String) : String := data

/-- `_generate_transfer_id` (source lines 294-297). -/
def generate_transfer_id (workset_id : String) (timestamp : Int) : String :=
  sha256hex16 (workset_id ++ "-" ++ toString timestamp ++ "-transfer")

/-- `_generate_request_id` (source lines 299-303); the timestamp baked into
the hashed data is `datetime.utcnow().isoformat()`, i.e. the clock value. -/
def generate_request_id (workset_id user_id : String) (now : Int) : String :=
  sha256hex16 (workset_id ++ "-" ++ user_id ++ "-" ++ toString now)

/-- `datetime.utcfromtimestamp(timestamp / 1000000)` on an epoch-microseconds
integer: with datetimes modelled as epoch microseconds this conversion is the
identity on the time value. -/
def utcfromtimestamp_micros (ts : Int) : Int := ts

/-- Result payload of a successful `register_workset`. -/
structure RegisterOk where
  workset_id : String
  action : String
deriving Repr, DecidableEq

/-- The ownership-history entry appended by `register_workset` (source lines
52-58). -/
def registerLogEntry (workset_id action owner : String) (now : Int)
    (m : Metadata) : LogEntry :=
  [("workset_id", LogValue.str workset_id),
   ("action", LogValue.str action),
   ("owner", LogValue.str owner),
   ("timestamp", LogValue.timeVal now),
   ("metadata", LogValue.meta m)]

/-- `register_workset` (source lines 28-64).  `kwargs.get("is_editable",
True)` is the explicit `is_editable` argument. -/
def register_workset (s : ContractState) (workset_id workset_name owner
    document_guid : String) (is_editable : Bool) (now : Int) :
    Except String RegisterOk × ContractState :=
  if workset_id = "" ∨ workset_name = "" ∨ owner = "" then
    (Except.error "Missing required parameters", s)
  else
    let is_new := (alLookup workset_id s.workset_owners).isNone
    let action := if is_new then "registered" else "updated"
    let m : Metadata :=
      { name := workset_name
        document_guid := document_guid
        registered_at := now
        is_editable := is_editable
        last_modified := now }
    (Except.ok { workset_id := workset_id, action := action },
     { s with
        workset_owners := alUpdate workset_id owner s.workset_owners
        workset_metadata := alUpdate workset_id m s.workset_metadata
        ownership_history := s.ownership_history ++
          [registerLogEntry workset_id action owner now m] })

/-- Result payload of a successful `transfer_ownership`. -/
structure TransferOk where
  workset_id : String
  new_owner : String
  transfer_id : String
deriving Repr, DecidableEq

/-- Does the workset currently have active borrows?  This is the check
`workset_id in self.active_borrows and self.active_borrows[workset_id]`
(source line 82). -/
def hasActiveBorrows (s : ContractState) (workset_id : String) : Bool :=
  match alLookup workset_id s.active_borrows with
  | some bs => !bs.isEmpty
  | none => false

/-- The ownership-history entry appended by `transfer_ownership` (source
lines 95-102). -/
def transferLogEntry (workset_id from_user to_user : String) (t : Int)
    (document_guid : Option String) : LogEntry :=
  [("workset_id", LogValue.str workset_id),
   ("action", LogValue.str "ownership_transfer"),
   ("from_user", LogValue.str from_user),
   ("to_user", LogValue.str to_user),
   ("timestamp", LogValue.timeVal t),
   ("document_guid",
     match document_guid with
     | some d => LogValue.str d
     | none => LogValue.nullVal)]

/-- `transfer_ownership` (source lines 66-109). -/
def transfer_ownership (s : ContractState) (workset_id from_user to_user :
    String) (timestamp : Int) (document_guid : Option String) (now : Int) :
    Except String TransferOk × ContractState :=
  match alLookup workset_id s.workset_owners with
  | none => (Except.error "Workset not found", s)
  | some owner =>
    if owner ≠ from_user then
      (Except.error ("User " ++ from_user ++ " is not the current owner"), s)
    else if hasActiveBorrows s workset_id then
      (Except.error "Cannot transfer ownership with active borrows", s)
    else
      (Except.ok
        { workset_id := workset_id
          new_owner := to_user
          transfer_id := generate_transfer_id workset_id timestamp },
       { s with
          workset_owners := alUpdate workset_id to_user s.workset_owners
          workset_metadata := alModify workset_id
            (fun m => { m with last_modified := now }) s.workset_metadata
          ownership_history := s.ownership_history ++
            [transferLogEntry workset_id from_user to_user
              (utcfromtimestamp_micros timestamp) document_guid] })

/-- Result payload of a successful `request_borrow`. -/
structure RequestOk where
  request_id : String
  status : String
  owner : String
deriving Repr, DecidableEq

/-- The requester's count of active borrows across all worksets (source lines
124-127). -/
def user_active_borrow_count (s : ContractState) (user_id : String) : Nat :=
  (s.active_borrows.map
    (fun wb => (wb.2.filter (fun b => b.borrower == user_id)).length)).sum

/-- `request_borrow` (source lines 111-157). -/
def request_borrow (s : ContractState) (workset_id : String)
    (element_ids : List String) (user_id reason : String) (now : Int) :
    Except String RequestOk × ContractState :=
  match alLookup workset_id s.workset_owners with
  | none => (Except.error "Workset not found", s)
  | some owner =>
    if owner = user_id then
      (Except.error "Owner cannot borrow from own workset", s)
    else if user_active_borrow_count s user_id ≥ s.max_concurrent_borrows then
      (Except.error ("User has reached maximum concurrent borrows (" ++
        toString s.max_concurrent_borrows ++ ")"), s)
    else
      let request_id := generate_request_id workset_id user_id now
      let borrow_request : BorrowRequest :=
        { request_id := request_id
          workset_id := workset_id
          element_ids := element_ids
          borrower := user_id
          owner := owner
          reason := reason
          requested_at := now
          status := "pending" }
      (Except.ok
        { request_id := request_id, status := "pending", owner := owner },
       { s with borrow_requests := s.borrow_requests ++ [borrow_request] })

/-- Result payload of a successful `approve_borrow`. -/
structure ApproveOk where
  request_id : String
  borrower : String
  expires_at : Int
deriving Repr, DecidableEq

/-- `next((r for r in self.borrow_requests if r["request_id"] ==
request_id), None)`: first request with the given id. -/
def findRequest (s : ContractState) (request_id : String) :
    Option BorrowRequest :=
  s.borrow_requests.find? (fun r => r.request_id == request_id)

/-- Replace the first element satisfying `p` (the source mutates that one
dict in place inside the list). -/
def replaceFirstBy (p : α → Bool) (v : α) : List α → List α
  | [] => []
  | x :: xs => if p x then v :: xs else x :: replaceFirstBy p v xs

/-- `approve_borrow` (source lines 159-204). -/
def approve_borrow (s : ContractState) (request_id owner_id : String)
    (now : Int) : Except String ApproveOk × ContractState :=
  match findRequest s request_id with
  | none => (Except.error "Request not found", s)
  | some request =>
    if request.owner ≠ owner_id then
      (Except.error "Only workset owner can approve", s)
    else if request.status ≠ "pending" then
      (Except.error ("Request already " ++ request.status), s)
    else
      let expires := now + s.borrow_timeout_hours * 3600 * 1000000
      let request' : BorrowRequest :=
        { request with
            status := "approved"
            approved_at := some now
            expires_at := some expires }
      let newBorrow : ActiveBorrow :=
        { borrower := request.borrower
          element_ids := request.element_ids
          borrowed_at := now
          expires_at := expires
          request_id := request_id }
      let oldList := (alLookup request.workset_id s.active_borrows).getD []
      (Except.ok
        { request_id := request_id
          borrower := request.borrower
          expires_at := expires },
       { s with
          borrow_requests :=
            replaceFirstBy (fun r => r.request_id == request_id) request'
              s.borrow_requests
          active_borrows :=
            alUpdate request.workset_id (oldList ++ [newBorrow])
              s.active_borrows
          borrow_history := s.borrow_history ++ [request'] })

/-- Result payload of a successful `release_borrowed`. -/
structure ReleaseOk where
  released_elements : List String
  released_at : Int
deriving Repr, DecidableEq

/-- The release loop of `release_borrowed` (source lines 222-237): walk the
workset's borrow list; each borrow held by `user_id` loses the elements in
`element_ids`, the removed elements are collected in order, and a borrow
whose element set empties is dropped. -/
def releasePass (element_ids : List String) (user_id : String) :
    List ActiveBorrow → List String × List ActiveBorrow
  | [] => ([], [])
  | b :: bs =>
    let rec_result := releasePass element_ids user_id bs
    if b.borrower == user_id then
      let remaining := b.element_ids.filter (fun e => !element_ids.contains e)
      if remaining.length < b.element_ids.length then
        let matched := b.element_ids.filter (fun e => element_ids.contains e)
        if remaining.isEmpty then
          (matched ++ rec_result.1, rec_result.2)
        else
          (matched ++ rec_result.1,
           { b with element_ids := remaining } :: rec_result.2)
      else
        (rec_result.1, b :: rec_result.2)
    else
      (rec_result.1, b :: rec_result.2)

/-- `release_borrowed` (source lines 206-247). -/
def release_borrowed (s : ContractState) (workset_id : String)
    (element_ids : List String) (user_id : String) (now : Int) :
    Except String ReleaseOk × ContractState :=
  match alLookup workset_id s.active_borrows with
  | none => (Except.error "No active borrows for workset", s)
  | some borrows =>
    if (borrows.filter (fun b => b.borrower == user_id)).isEmpty then
      (Except.error "User has no active borrows", s)
    else
      let result := releasePass element_ids user_id borrows
      let newTable :=
        if result.2.isEmpty then alErase workset_id s.active_borrows
        else alUpdate workset_id result.2 s.active_borrows
      (Except.ok { released_elements := result.1, released_at := now },
       { s with active_borrows := newTable })

/-- `check_expired_borrows` (source lines 249-274): collect every active
borrow with `expires_at` strictly before now, drop them from the table, and
drop worksets whose borrow list empties. -/
def check_expired_borrows (s : ContractState) (now : Int) :
    List ExpiredEntry × ContractState :=
  let expired := s.active_borrows.flatMap (fun wb =>
    (wb.2.filter (fun b => decide (b.expires_at < now))).map (fun b =>
      { workset_id := wb.1
        borrower := b.borrower
        element_ids := b.element_ids
        expired_at := b.expires_at }))
  let newTable :=
    (s.active_borrows.map (fun wb =>
      (wb.1, wb.2.filter (fun b => !decide (b.expires_at < now))))).filter
      (fun wb => !wb.2.isEmpty)
  (expired, { s with active_borrows := newTable })

/-- Result payload of a successful `get_workset_status`.  The source reads
`self.workset_metadata[workset_id]`, which is always present for a
registered workset; the model totalizes the read with an `Option`. -/
structure StatusOk where
  workset_id : String
  owner : String
  metadata : Option Metadata
  active_borrows : Nat
  borrowed_elements : Nat
  borrowers : List String
deriving Repr, DecidableEq

/-- `get_workset_status` (source lines 276-292): a pure read returning the
state unchanged.  `list(set(...))` is modelled by duplicate removal. -/
def get_workset_status (s : ContractState) (workset_id : String) :
    Except String StatusOk × ContractState :=
  match alLookup workset_id s.workset_owners with
  | none => (Except.error "Workset not found", s)
  | some owner =>
    let borrows := (alLookup workset_id s.active_borrows).getD []
    (Except.ok
      { workset_id := workset_id
        owner := owner
        metadata := alLookup workset_id s.workset_metadata
        active_borrows := borrows.length
        borrowed_elements := (borrows.map (fun b => b.element_ids.length)).sum
        borrowers := (borrows.map (fun b => b.borrower)).dedup },
     s)

/-! ## Helper lemmas about the dict model -/

theorem alLookup_alUpdate_self (k : String) (v : α) (l : List (String × α)) :
    alLookup k (alUpdate k v l) = some v := by
  induction l with
  | nil => simp [alUpdate, alLookup]
  | cons hd tl ih =>
    by_cases h : k = hd.1
    · simp [alUpdate, alLookup, h]
    · simp [alUpdate, alLookup, h, ih]

theorem alUpdate_of_alLookup_eq (k : String) (v : α) (l : List (String × α))
    (h : alLookup k l = some v) : alUpdate k v l = l := by
  induction l with
  | nil => simp [alLookup] at h
  | cons hd tl ih =>
    by_cases hk : k = hd.1
    · simp [alLookup, hk] at h
      simp [alUpdate, hk, ← h]
    · simp [alLookup, hk] at h
      simp [alUpdate, hk, ih h]

theorem mem_alUpdate (k : String) (v : α) (l : List (String × α))
    (wb : String × α) (h : wb ∈ alUpdate k v l) : wb = (k, v) ∨ wb ∈ l := by
  induction l with
  | nil => simp [alUpdate] at h; simp [h]
  | cons hd tl ih =>
    by_cases hk : k = hd.1
    · simp [alUpdate, hk] at h
      rcases h with h | h
      · left; simp [h, hk]
      · right; simp [h]
    · simp [alUpdate, hk] at h
      rcases h with h | h
      · right; simp [h]
      · rcases ih h with h' | h'
        · left; exact h'
        · right; simp [h']

theorem mem_alErase (k : String) (l : List (String × α)) (wb : String × α)
    (h : wb ∈ alErase k l) : wb ∈ l := by
  induction l with
  | nil => simp [alErase] at h
  | cons hd tl ih =>
    by_cases hk : k = hd.1
    · simp [alErase, hk] at h
      simp [h]
    · simp [alErase, hk] at h
      rcases h with h | h
      · simp [h]
      · simp [ih h]

/-! ## C1: transfer_ownership success condition, error order, owner frame -/

/-- C1: `transfer_ownership(workset_id, from_user, to_user, timestamp)`
succeeds iff the workset is registered with `from_user` as its recorded
owner (`alLookup = some from_user`) and it has no active borrows; otherwise
it returns the failure of the first violated precondition in the order
NotFound ("Workset not found"), Unauthorized ("User ... is not the current
owner"), Conflict ("Cannot transfer ownership with active borrows"), and on
every failure the recorded owner is unchanged (the state is returned
untouched). -/
theorem transfer_ownership_correct (s : ContractState)
    (workset_id from_user to_user : String) (timestamp : Int)
    (document_guid : Option String) (now : Int) :
    (isOk (transfer_ownership s workset_id from_user to_user timestamp
        document_guid now).1 = true
      ↔ alLookup workset_id s.workset_owners = some from_user ∧
        hasActiveBorrows s workset_id = false)
    ∧ (alLookup workset_id s.workset_owners = none →
       transfer_ownership s workset_id from_user to_user timestamp
           document_guid now
         = (Except.error "Workset not found", s))
    ∧ (∀ o, alLookup workset_id s.workset_owners = some o → o ≠ from_user →
       transfer_ownership s workset_id from_user to_user timestamp
           document_guid now
         = (Except.error ("User " ++ from_user ++ " is not the current owner"),
            s))
    ∧ (alLookup workset_id s.workset_owners = some from_user →
       hasActiveBorrows s workset_id = true →
       transfer_ownership s workset_id from_user to_user timestamp
           document_guid now
         = (Except.error "Cannot transfer ownership with active borrows", s))
    ∧ (isOk (transfer_ownership s workset_id from_user to_user timestamp
        document_guid now).1 = false →
       alLookup workset_id (transfer_ownership s workset_id from_user to_user
         timestamp document_guid now).2.workset_owners
         = alLookup workset_id s.workset_owners) := by
  cases h : alLookup workset_id s.workset_owners with
  | none =>
    simp [transfer_ownership, h, isOk]
  | some o =>
    by_cases ho : o = from_user
    · subst ho
      by_cases hb : hasActiveBorrows s workset_id
      · simp [transfer_ownership, h, hb, isOk]
      · simp [transfer_ownership, h, hb, isOk]
    · simp [transfer_ownership, h, ho, isOk, Ne.symm ho]

/-- Witness for C1: on a concretely registered workset with no borrows the
transfer by the recorded owner succeeds. -/
theorem transfer_ownership_correct_witness :
    isOk (transfer_ownership
      (register_workset ContractState.init "ws1" "Structural" "alice" "d1"
        true 0).2 "ws1" "alice" "carol" 7000000 none 9).1 = true :=
  (transfer_ownership_correct
    (register_workset ContractState.init "ws1" "Structural" "alice" "d1"
      true 0).2 "ws1" "alice" "carol" 7000000 none 9).1.mpr (by decide)

/-! ## C8: register_workset validation, unconditional overwrite, action -/

/-- C8: `register_workset` fails with the InvalidInput error "Missing
required parameters" exactly when `workset_id`, `workset_name` or `owner`
is empty, leaving the state unchanged; otherwise it unconditionally
overwrites owner and metadata (no authorization check), appends exactly one
ownership-history entry, and reports action "updated" when the workset_id
already existed and "registered" when it is new. -/
theorem register_workset_correct (s : ContractState)
    (workset_id workset_name owner document_guid : String)
    (is_editable : Bool) (now : Int) :
    (isOk (register_workset s workset_id workset_name owner document_guid
        is_editable now).1 = true
      ↔ workset_id ≠ "" ∧ workset_name ≠ "" ∧ owner ≠ "")
    ∧ (workset_id = "" ∨ workset_name = "" ∨ owner = "" →
       register_workset s workset_id workset_name owner document_guid
           is_editable now
         = (Except.error "Missing required parameters", s))
    ∧ (workset_id ≠ "" → workset_name ≠ "" → owner ≠ "" →
       (register_workset s workset_id workset_name owner document_guid
          is_editable now).1
         = Except.ok { workset_id := workset_id,
                       action :=
                         if (alLookup workset_id s.workset_owners).isNone
                         then "registered" else "updated" }
       ∧ alLookup workset_id (register_workset s workset_id workset_name
           owner document_guid is_editable now).2.workset_owners
         = some owner
       ∧ alLookup workset_id (register_workset s workset_id workset_name
           owner document_guid is_editable now).2.workset_metadata
         = some { name := workset_name, document_guid := document_guid,
                  registered_at := now, is_editable := is_editable,
                  last_modified := now }
       ∧ (register_workset s workset_id workset_name owner document_guid
           is_editable now).2.ownership_history
         = s.ownership_history ++
           [registerLogEntry workset_id
             (if (alLookup workset_id s.workset_owners).isNone
               then "registered" else "updated") owner now
             { name := workset_name, document_guid := document_guid,
               registered_at := now, is_editable := is_editable,
               last_modified := now }]) := by
  by_cases hempty : workset_id = "" ∨ workset_name = "" ∨ owner = ""
  · constructor
    · simp [register_workset, hempty, isOk]
      intro h1 h2
      rcases hempty with h | h | h <;> simp_all
    · constructor
      · intro _
        simp [register_workset, hempty]
      · intro h1 h2 h3
        rcases hempty with h | h | h <;> simp_all
  · push_neg at hempty
    constructor
    · simp [register_workset, hempty.1, hempty.2.1, hempty.2.2, isOk]
    · constructor
      · intro h
        rcases h with h | h | h <;> simp_all [hempty.1, hempty.2.1, hempty.2.2]
      · intro _ _ _
        refine ⟨?_, ?_, ?_, ?_⟩ <;>
          simp [register_workset, hempty.1, hempty.2.1, hempty.2.2,
            alLookup_alUpdate_self]

/-- Witness for C8: re-registering an existing workset succeeds with action
"updated" and silently overwrites the owner. -/
theorem register_workset_correct_witness :
    alLookup "ws1" (register_workset
      (register_workset ContractState.init "ws1" "Structural" "alice" "d1"
        true 0).2 "ws1" "Structural" "mallory" "d1" true 1).2.workset_owners
      = some "mallory" :=
  ((register_workset_correct
    (register_workset ContractState.init "ws1" "Structural" "alice" "d1"
      true 0).2 "ws1" "Structural" "mallory" "d1" true 1).2.2
    (by decide) (by decide) (by decide)).2.1

/-! ## C10: get_workset_status is read-only -/

/-- C10: `get_workset_status` leaves every component of the state unchanged
(workset_owners, workset_metadata, borrow_requests, active_borrows and both
history logs), for every state and every workset_id. -/
theorem get_workset_status_readonly (s : ContractState)
    (workset_id : String) :
    (get_workset_status s workset_id).2.workset_owners = s.workset_owners
    ∧ (get_workset_status s workset_id).2.workset_metadata =
        s.workset_metadata
    ∧ (get_workset_status s workset_id).2.borrow_requests = s.borrow_requests
    ∧ (get_workset_status s workset_id).2.active_borrows = s.active_borrows
    ∧ (get_workset_status s workset_id).2.borrow_history = s.borrow_history
    ∧ (get_workset_status s workset_id).2.ownership_history =
        s.ownership_history := by
  unfold get_workset_status
  cases alLookup workset_id s.workset_owners <;> simp

/-! ## C7: releasing elements nobody holds is a successful no-op -/

theorem releasePass_no_match (element_ids : List String) (user_id : String)
    (bs : List ActiveBorrow)
    (h : ∀ b ∈ bs, b.borrower = user_id →
      ∀ e ∈ b.element_ids, e ∉ element_ids) :
    releasePass element_ids user_id bs = ([], bs) := by
  induction bs with
  | nil => simp [releasePass]
  | cons b rest ih =>
    have hrest := ih (fun b' hb' => h b' (List.mem_cons_of_mem _ hb'))
    by_cases hb : b.borrower = user_id
    · have hfilter :
          List.filter (fun e => !decide (e ∈ element_ids)) b.element_ids
            = b.element_ids := by
        apply List.filter_eq_self.mpr
        intro e he
        simpa using h b (List.mem_cons_self b rest) hb e he
      simp [releasePass, hb, hrest, hfilter]
    · simp [releasePass, hb, hrest]

/-- C7: if `user_id` holds at least one active borrow on `workset_id` but
none of the requested `element_ids` occur in any of that user's borrows on
that workset, `release_borrowed` returns success with an empty released
list and the whole state (in particular the active-borrow table) is
unchanged. -/
theorem release_borrowed_no_match (s : ContractState) (workset_id : String)
    (element_ids : List String) (user_id : String) (now : Int)
    (bs : List ActiveBorrow)
    (hl : alLookup workset_id s.active_borrows = some bs)
    (huser : (bs.filter (fun b => b.borrower == user_id)).isEmpty = false)
    (hnone : ∀ b ∈ bs, b.borrower = user_id →
      ∀ e ∈ b.element_ids, e ∉ element_ids) :
    release_borrowed s workset_id element_ids user_id now
      = (Except.ok { released_elements := [], released_at := now }, s) := by
  have hbs : bs.isEmpty = false := by
    cases bs with
    | nil => simp at huser
    | cons x xs => simp
  unfold release_borrowed
  rw [hl]
  simp [huser, releasePass_no_match element_ids user_id bs hnone, hbs,
    alUpdate_of_alLookup_eq workset_id bs s.active_borrows hl]

/-- Witness for C7: bob holds `e2` on `ws1`; releasing `zz` succeeds with an
empty released list and changes nothing. -/
theorem release_borrowed_no_match_witness :
    release_borrowed (approve_borrow (request_borrow
        (register_workset ContractState.init "ws1" "Structural" "alice" "d1"
          true 0).2 "ws1" ["e2"] "bob" "" 5).2 "ws1-bob-5" "alice" 6).2
        "ws1" ["zz"] "bob" 8
      = (Except.ok { released_elements := [], released_at := 8 },
         (approve_borrow (request_borrow
           (register_workset ContractState.init "ws1" "Structural" "alice"
             "d1" true 0).2 "ws1" ["e2"] "bob" "" 5).2 "ws1-bob-5" "alice"
           6).2) :=
  release_borrowed_no_match _ "ws1" ["zz"] "bob" 8
    [{ borrower := "bob", element_ids := ["e2"], borrowed_at := 6,
       expires_at := 86400000006, request_id := "ws1-bob-5" }]
    (by decide) (by decide) (by decide)

/-! ## C5: the expiry sweep returns exactly the strictly-expired borrows -/

/-- C5: `check_expired_borrows` run at time `now` (i) only returns borrows
whose expiry is strictly before `now` (never one in the future), (ii) leaves
no borrow with expiry before `now` in the active table afterwards (so every
returned borrow is gone), and (iii) returns an entry for every active borrow
whose expiry is strictly before `now`. -/
theorem check_expired_borrows_correct (s : ContractState) (now : Int) :
    (∀ e ∈ (check_expired_borrows s now).1, e.expired_at < now)
    ∧ (∀ wb ∈ (check_expired_borrows s now).2.active_borrows,
        ∀ b ∈ wb.2, ¬ b.expires_at < now)
    ∧ (∀ w bs b, (w, bs) ∈ s.active_borrows → b ∈ bs → b.expires_at < now →
        ({ workset_id := w, borrower := b.borrower,
           element_ids := b.element_ids,
           expired_at := b.expires_at } : ExpiredEntry)
          ∈ (check_expired_borrows s now).1) := by
  refine ⟨?_, ?_, ?_⟩
  · intro e he
    simp only [check_expired_borrows, List.mem_flatMap, List.mem_map,
      List.mem_filter] at he
    obtain ⟨wb, _, b, ⟨_, hlt⟩, rfl⟩ := he
    simpa using hlt
  · intro wb hwb b hb
    simp only [check_expired_borrows, List.mem_filter, List.mem_map] at hwb
    obtain ⟨⟨wb', _, rfl⟩, _⟩ := hwb
    simp only [List.mem_filter] at hb
    simpa using hb.2
  · intro w bs b hws hb hlt
    simp only [check_expired_borrows, List.mem_flatMap, List.mem_map,
      List.mem_filter]
    exact ⟨(w, bs), hws, b, ⟨hb, by simpa using hlt⟩, rfl⟩

/-- Witness for C5: on a concrete state where bob's borrow of `e2` expires
at 86400000006, sweeping at 86400000007 returns that borrow. -/
theorem check_expired_borrows_correct_witness :
    ({ workset_id := "ws1", borrower := "bob", element_ids := ["e2"],
       expired_at := 86400000006 } : ExpiredEntry)
      ∈ (check_expired_borrows (approve_borrow (request_borrow
          (register_workset ContractState.init "ws1" "Structural" "alice"
            "d1" true 0).2 "ws1" ["e2"] "bob" "" 5).2 "ws1-bob-5" "alice"
          6).2 86400000007).1 :=
  (check_expired_borrows_correct (approve_borrow (request_borrow
      (register_workset ContractState.init "ws1" "Structural" "alice"
        "d1" true 0).2 "ws1" ["e2"] "bob" "" 5).2 "ws1-bob-5" "alice"
      6).2 86400000007).2.2 "ws1"
    [{ borrower := "bob", element_ids := ["e2"], borrowed_at := 6,
       expires_at := 86400000006, request_id := "ws1-bob-5" }]
    { borrower := "bob", element_ids := ["e2"], borrowed_at := 6,
      expires_at := 86400000006, request_id := "ws1-bob-5" }
    (by decide) (by decide) (by decide)

/-! ## C3: approval authority is the owner snapshotted at request time -/

/-- C3: for a state whose first request with id `r.request_id` is `r`,
`approve_borrow` rejects `oid` with the Unauthorized error exactly when
`oid` differs from the owner snapshotted into `r` at request time; when
`oid` is the snapshotted owner the call proceeds to the status check
(Conflict when not pending, success when pending).  `transfer_ownership`
never touches `borrow_requests`, so after a transfer the snapshotted owner —
not the new current owner — still holds approval rights. -/
theorem approve_borrow_snapshot_auth (s : ContractState) (oid : String)
    (now : Int) (r : BorrowRequest)
    (hfind : findRequest s r.request_id = some r) :
    (oid ≠ r.owner →
       approve_borrow s r.request_id oid now
         = (Except.error "Only workset owner can approve", s))
    ∧ (oid = r.owner → r.status ≠ "pending" →
       approve_borrow s r.request_id oid now
         = (Except.error ("Request already " ++ r.status), s))
    ∧ (oid = r.owner → r.status = "pending" →
       isOk (approve_borrow s r.request_id oid now).1 = true)
    ∧ (∀ w fu tu ts g now2,
       (transfer_ownership s w fu tu ts g now2).2.borrow_requests
         = s.borrow_requests) := by
  refine ⟨?_, ?_, ?_, ?_⟩
  · intro hne
    unfold approve_borrow
    rw [hfind]
    simp [Ne.symm hne]
  · intro hoid hst
    unfold approve_borrow
    rw [hfind]
    simp [hoid, hst]
  · intro hoid hst
    unfold approve_borrow
    rw [hfind]
    simp [hoid, hst, isOk]
  · intro w fu tu ts g now2
    unfold transfer_ownership
    cases alLookup w s.workset_owners with
    | none => rfl
    | some o =>
      by_cases h1 : o ≠ fu
      · simp [h1]
      · by_cases h2 : hasActiveBorrows s w <;> simp [h1, h2]

/-- Witness for C3: bob's request on `ws1` snapshots owner "alice"; after
the transfer of `ws1` to "carol", "alice" can still approve and "carol"
is rejected as Unauthorized. -/
theorem approve_borrow_snapshot_auth_witness :
    isOk (approve_borrow (transfer_ownership (request_borrow
        (register_workset ContractState.init "ws1" "Structural" "alice" "d1"
          true 0).2 "ws1" ["e2"] "bob" "" 5).2 "ws1" "alice" "carol" 7000000
        none 9).2 "ws1-bob-5" "alice" 10).1 = true
    ∧ approve_borrow (transfer_ownership (request_borrow
        (register_workset ContractState.init "ws1" "Structural" "alice" "d1"
          true 0).2 "ws1" ["e2"] "bob" "" 5).2 "ws1" "alice" "carol" 7000000
        none 9).2 "ws1-bob-5" "carol" 10
      = (Except.error "Only workset owner can approve",
         (transfer_ownership (request_borrow
           (register_workset ContractState.init "ws1" "Structural" "alice"
             "d1" true 0).2 "ws1" ["e2"] "bob" "" 5).2 "ws1" "alice" "carol"
           7000000 none 9).2) :=
  ⟨(approve_borrow_snapshot_auth _ "alice" 10
      { request_id := "ws1-bob-5", workset_id := "ws1",
        element_ids := ["e2"], borrower := "bob", owner := "alice",
        reason := "", requested_at := 5, status := "pending" }
      (by decide)).2.2.1 (by decide) (by decide),
   (approve_borrow_snapshot_auth _ "carol" 10
      { request_id := "ws1-bob-5", workset_id := "ws1",
        element_ids := ["e2"], borrower := "bob", owner := "alice",
        reason := "", requested_at := 5, status := "pending" }
      (by decide)).1 (by decide)⟩

/-! ## C4: double approval — success once, Conflict the second time -/

theorem find_replaceFirstBy (p : α → Bool) (v : α) (l : List α) (r : α)
    (hf : l.find? p = some r) (hv : p v = true) :
    (replaceFirstBy p v l).find? p = some v := by
  induction l with
  | nil => simp at hf
  | cons x xs ih =>
    by_cases hx : p x
    · simp [replaceFirstBy, hx, List.find?_cons_of_pos, hv]
    · rw [List.find?_cons_of_neg _ hx] at hf
      rw [replaceFirstBy, if_neg (by simp [hx]),
        List.find?_cons_of_neg _ hx]
      exact ih hf

/-- C4: with `r` the first pending request with id `rid` and `oid` its
snapshotted owner, approving twice yields success the first time; the
second call returns the Conflict error "Request already approved" (the
message carries the current status) and returns the post-first-call state
untouched — in particular no second ActiveBorrow entry is created. -/
theorem approve_borrow_twice (s : ContractState) (rid oid : String)
    (t1 t2 : Int) (r : BorrowRequest)
    (hfind : findRequest s rid = some r)
    (hpend : r.status = "pending")
    (hown : oid = r.owner) :
    isOk (approve_borrow s rid oid t1).1 = true
    ∧ approve_borrow (approve_borrow s rid oid t1).2 rid oid t2
        = (Except.error ("Request already " ++ "approved"),
           (approve_borrow s rid oid t1).2) := by
  have hpr0 := List.find?_some (show List.find?
    (fun q => q.request_id == rid) s.borrow_requests = some r from
    by simpa [findRequest] using hfind)
  have hpr : (r.request_id == rid) = true := hpr0
  have hok1 : isOk (approve_borrow s rid oid t1).1 = true := by
    unfold approve_borrow
    rw [hfind]
    simp [hown, hpend, isOk]
  have hs1 : (approve_borrow s rid oid t1).2.borrow_requests
      = replaceFirstBy (fun q => q.request_id == rid)
          { r with status := "approved", approved_at := some t1,
                   expires_at :=
                     some (t1 + s.borrow_timeout_hours * 3600 * 1000000) }
          s.borrow_requests := by
    unfold approve_borrow
    rw [hfind]
    simp [hown, hpend]
  have hfind2 : findRequest (approve_borrow s rid oid t1).2 rid
      = some { r with status := "approved", approved_at := some t1,
                      expires_at :=
                        some (t1 + s.borrow_timeout_hours * 3600 * 1000000) }
      := by
    unfold findRequest
    rw [hs1]
    exact find_replaceFirstBy _ _ _ r (by simpa [findRequest] using hfind)
      (by simpa using hpr)
  refine ⟨hok1, ?_⟩
  conv_lhs => rw [approve_borrow]
  rw [hfind2]
  simp [hown]

/-- Witness for C4: approving bob's pending request twice on a concrete
state. -/
theorem approve_borrow_twice_witness :
    isOk (approve_borrow (request_borrow
        (register_workset ContractState.init "ws1" "Structural" "alice" "d1"
          true 0).2 "ws1" ["e2"] "bob" "" 5).2 "ws1-bob-5" "alice" 6).1 = true
    ∧ approve_borrow (approve_borrow (request_borrow
        (register_workset ContractState.init "ws1" "Structural" "alice" "d1"
          true 0).2 "ws1" ["e2"] "bob" "" 5).2 "ws1-bob-5" "alice" 6).2
        "ws1-bob-5" "alice" 7
      = (Except.error ("Request already " ++ "approved"),
         (approve_borrow (request_borrow
           (register_workset ContractState.init "ws1" "Structural" "alice"
             "d1" true 0).2 "ws1" ["e2"] "bob" "" 5).2 "ws1-bob-5" "alice"
           6).2) :=
  approve_borrow_twice _ "ws1-bob-5" "alice" 6 7
    { request_id := "ws1-bob-5", workset_id := "ws1", element_ids := ["e2"],
      borrower := "bob", owner := "alice", reason := "", requested_at := 5,
      status := "pending" }
    (by decide) (by decide) (by decide)

/-! ## C6: active-borrow lists are never left empty -/

/-- States reachable from the initial ledger by any sequence of operations
with any arguments. -/
inductive Reachable : ContractState → Prop where
  | init : Reachable ContractState.init
  | step_register (s : ContractState) (a b c d : String) (e : Bool)
      (t : Int) : Reachable s → Reachable (register_workset s a b c d e t).2
  | step_transfer (s : ContractState) (a b c : String) (ts : Int)
      (g : Option String) (t : Int) :
      Reachable s → Reachable (transfer_ownership s a b c ts g t).2
  | step_request (s : ContractState) (a : String) (eids : List String)
      (u v : String) (t : Int) :
      Reachable s → Reachable (request_borrow s a eids u v t).2
  | step_approve (s : ContractState) (rid oid : String) (t : Int) :
      Reachable s → Reachable (approve_borrow s rid oid t).2
  | step_release (s : ContractState) (a : String) (eids : List String)
      (u : String) (t : Int) :
      Reachable s → Reachable (release_borrowed s a eids u t).2
  | step_expire (s : ContractState) (t : Int) :
      Reachable s → Reachable (check_expired_borrows s t).2
  | step_status (s : ContractState) (a : String) :
      Reachable s → Reachable (get_workset_status s a).2

theorem register_active_frame (s : ContractState) (a b c d : String)
    (e : Bool) (t : Int) :
    (register_workset s a b c d e t).2.active_borrows = s.active_borrows := by
  unfold register_workset
  split <;> rfl

theorem transfer_active_frame (s : ContractState) (a b c : String)
    (ts : Int) (g : Option String) (t : Int) :
    (transfer_ownership s a b c ts g t).2.active_borrows
      = s.active_borrows := by
  unfold transfer_ownership
  cases alLookup a s.workset_owners with
  | none => rfl
  | some o =>
    by_cases h1 : o ≠ b
    · simp [h1]
    · by_cases h2 : hasActiveBorrows s a <;> simp [h1, h2]

theorem request_active_frame (s : ContractState) (a : String)
    (eids : List String) (u v : String) (t : Int) :
    (request_borrow s a eids u v t).2.active_borrows = s.active_borrows := by
  unfold request_borrow
  cases alLookup a s.workset_owners with
  | none => rfl
  | some o =>
    by_cases h1 : o = u
    · simp [h1]
    · by_cases h2 : user_active_borrow_count s u ≥ s.max_concurrent_borrows
        <;> simp [h1, h2]

theorem status_active_frame (s : ContractState) (a : String) :
    (get_workset_status s a).2.active_borrows = s.active_borrows := by
  unfold get_workset_status
  cases alLookup a s.workset_owners <;> rfl

theorem approve_preserves_nonempty (s : ContractState) (rid oid : String)
    (t : Int) (ih : ∀ wb ∈ s.active_borrows, wb.2 ≠ []) :
    ∀ wb ∈ (approve_borrow s rid oid t).2.active_borrows, wb.2 ≠ [] := by
  intro wb hwb
  unfold approve_borrow at hwb
  cases hf : findRequest s rid with
  | none => rw [hf] at hwb; exact ih wb hwb
  | some r =>
    rw [hf] at hwb
    dsimp only at hwb
    by_cases h1 : r.owner ≠ oid
    · rw [if_pos h1] at hwb; exact ih wb hwb
    · rw [if_neg h1] at hwb
      by_cases h2 : r.status ≠ "pending"
      · rw [if_pos h2] at hwb; exact ih wb hwb
      · rw [if_neg h2] at hwb
        dsimp only at hwb
        rcases mem_alUpdate _ _ _ _ hwb with heq | hmem
        · rw [heq]; simp
        · exact ih wb hmem

theorem release_preserves_nonempty (s : ContractState) (a : String)
    (eids : List String) (u : String) (t : Int)
    (ih : ∀ wb ∈ s.active_borrows, wb.2 ≠ []) :
    ∀ wb ∈ (release_borrowed s a eids u t).2.active_borrows, wb.2 ≠ [] := by
  intro wb hwb
  unfold release_borrowed at hwb
  cases hl : alLookup a s.active_borrows with
  | none => rw [hl] at hwb; exact ih wb hwb
  | some bs =>
    rw [hl] at hwb
    dsimp only at hwb
    by_cases h1 : (bs.filter (fun b => b.borrower == u)).isEmpty
    · rw [if_pos h1] at hwb; exact ih wb hwb
    · rw [if_neg h1] at hwb
      dsimp only at hwb
      by_cases h2 : (releasePass eids u bs).2.isEmpty
      · rw [if_pos h2] at hwb
        exact ih wb (mem_alErase _ _ _ hwb)
      · rw [if_neg h2] at hwb
        rcases mem_alUpdate _ _ _ _ hwb with heq | hmem
        · rw [heq]
          simpa using h2
        · exact ih wb hmem

theorem expire_preserves_nonempty (s : ContractState) (t : Int) :
    ∀ wb ∈ (check_expired_borrows s t).2.active_borrows, wb.2 ≠ [] := by
  intro wb hwb
  simp only [check_expired_borrows, List.mem_filter] at hwb
  simpa using hwb.2

/-- C6: in every state reachable from the initial empty ledger, every
workset key present in the active-borrow table maps to a non-empty list of
borrows — `release_borrowed` and `check_expired_borrows` delete a workset's
entry when its list empties, and no operation leaves an empty list behind. -/
theorem active_borrow_lists_nonempty (s : ContractState)
    (h : Reachable s) :
    s.active_borrows.all (fun wb => !wb.2.isEmpty) = true := by
  have key : ∀ wb ∈ s.active_borrows, wb.2 ≠ [] := by
    induction h with
    | init => simp [ContractState.init]
    | step_register s a b c d e t hs ih =>
      rw [register_active_frame]; exact ih
    | step_transfer s a b c ts g t hs ih =>
      rw [transfer_active_frame]; exact ih
    | step_request s a eids u v t hs ih =>
      rw [request_active_frame]; exact ih
    | step_approve s rid oid t hs ih =>
      exact approve_preserves_nonempty s rid oid t ih
    | step_release s a eids u t hs ih =>
      exact release_preserves_nonempty s a eids u t ih
    | step_expire s t hs ih =>
      exact expire_preserves_nonempty s t
    | step_status s a hs ih =>
      rw [status_active_frame]; exact ih
  rw [List.all_eq_true]
  intro wb hwb
  simpa using key wb hwb

/-- Witness for C6: the invariant holds on a concrete reachable state that
still has an active borrow (bob holds `e2` and `e3` on `ws1`, `e2`
released). -/
theorem active_borrow_lists_nonempty_witness :
    ((release_borrowed (approve_borrow (request_borrow
      (register_workset ContractState.init "ws1" "Structural" "alice" "d1"
        true 0).2 "ws1" ["e2", "e3"] "bob" "" 5).2 "ws1-bob-5" "alice" 6).2
      "ws1" ["e2"] "bob" 8).2.active_borrows.all
        (fun wb => !wb.2.isEmpty)) = true :=
  active_borrow_lists_nonempty _
    (Reachable.step_release _ _ _ _ _
      (Reachable.step_approve _ _ _ _
        (Reachable.step_request _ _ _ _ _ _
          (Reachable.step_register _ _ _ _ _ _ _ Reachable.init))))

/-! ## C2: the borrow ceiling is checked at request time only

`request_borrow` rejects a request when the requester already holds
`max_concurrent_borrows` active borrows, but `approve_borrow` performs no
ceiling check.  Pending requests are unlimited, so approving already-filed
requests pushes a user's active borrow count past the ceiling: eleven
successful requests on one workset followed by eleven successful approvals
leave bob with 11 > 10 active borrows. -/

/-- Run one `request_borrow` by bob on `ws1` for each clock value, demanding
success, and collect the returned request ids. -/
def requestMany (s : ContractState) : List Int →
    Option (List String × ContractState)
  | [] => some ([], s)
  | t :: rest =>
    match request_borrow s "ws1" ["e1"] "bob" "" t with
    | (Except.ok p, s') =>
      match requestMany s' rest with
      | some (ids, s'') => some (p.request_id :: ids, s'')
      | none => none
    | (Except.error _, _) => none

/-- Approve each listed request as "alice", demanding success each time. -/
def approveMany (s : ContractState) (t : Int) : List String →
    Option ContractState
  | [] => some s
  | rid :: rest =>
    match approve_borrow s rid "alice" t with
    | (Except.ok _, s') => approveMany s' t rest
    | (Except.error _, _) => none

/-- The final state of the C2 counterexample trace: one registration,
eleven successful borrow requests, eleven successful approvals.  A `none`
anywhere would mean some call failed. -/
def overCeilingTrace : Option ContractState :=
  match register_workset ContractState.init "ws1" "Structural" "alice" "d1"
      true 0 with
  | (Except.ok _, s1) =>
    match requestMany s1 ((List.range 11).map Int.ofNat) with
    | some (ids, s2) => approveMany s2 100 ids
    | none => none
  | (Except.error _, _) => none

/-- C2 counterexample: after a sequence of successful `request_borrow` and
`approve_borrow` calls (eleven each, on a ledger holding one registered
workset) bob's active borrow count is 11, strictly above the configured
ceiling of 10. -/
theorem over_ceiling_counterexample :
    overCeilingTrace.map (fun s => user_active_borrow_count s "bob")
      = some 11
    ∧ ContractState.init.max_concurrent_borrows = 10 := by
  constructor
  · rfl
  · rfl

/-- C2 (amended): a successful `request_borrow` requires the requester's
active borrow count across all worksets to be strictly below
`max_concurrent_borrows` at request time; `approve_borrow` re-checks
nothing, so the active count itself may exceed the ceiling afterwards. -/
theorem request_borrow_ceiling (s : ContractState) (workset_id : String)
    (element_ids : List String) (user_id reason : String) (now : Int)
    (hok : isOk (request_borrow s workset_id element_ids user_id reason
      now).1 = true) :
    user_active_borrow_count s user_id < s.max_concurrent_borrows := by
  unfold request_borrow at hok
  cases h : alLookup workset_id s.workset_owners with
  | none => rw [h] at hok; simp [isOk] at hok
  | some o =>
    rw [h] at hok
    dsimp only at hok
    by_cases h1 : o = user_id
    · rw [if_pos h1] at hok; simp [isOk] at hok
    · rw [if_neg h1] at hok
      by_cases h2 : user_active_borrow_count s user_id ≥
          s.max_concurrent_borrows
      · rw [if_pos h2] at hok; simp [isOk] at hok
      · omega

/-- Witness for the amended C2: bob's successful concrete request implies
his active count (zero) is below the ceiling. -/
theorem request_borrow_ceiling_witness :
    user_active_borrow_count
      (register_workset ContractState.init "ws1" "Structural" "alice" "d1"
        true 0).2 "bob"
      < (register_workset ContractState.init "ws1" "Structural" "alice" "d1"
        true 0).2.max_concurrent_borrows :=
  request_borrow_ceiling _ "ws1" ["e1"] "bob" "" 5 (by decide)

/-! ## C9: the transfer history entry has no transfer_id field

On a successful `transfer_ownership` the derived transfer_id is only placed
in the returned result dict (source line 108); the history entry appended at
lines 95-102 carries workset_id, action, from_user, to_user, the converted
timestamp and document_guid — no transfer_id key. -/

/-- The concrete successful transfer used to refute C9 as stated. -/
def c9transfer : Except String TransferOk × ContractState :=
  transfer_ownership
    (register_workset ContractState.init "ws1" "Structural" "alice" "d1"
      true 0).2 "ws1" "alice" "carol" 7000000 none 9

/-- C9 counterexample: the concrete transfer succeeds and appends exactly
one history entry, but that entry has no "transfer_id" key and none of its
values equals the derived transfer id — the id appears only in the returned
result. -/
theorem transfer_id_not_in_history_counterexample :
    isOk c9transfer.1 = true
    ∧ c9transfer.2.ownership_history.length = 2
    ∧ (c9transfer.2.ownership_history.getLast?.getD []).all
        (fun kv => kv.1 != "transfer_id" &&
          kv.2 != LogValue.str (generate_transfer_id "ws1" 7000000)) = true
    ∧ c9transfer.1 = Except.ok { workset_id := "ws1",
                                 new_owner := "carol",
                                 transfer_id :=
                                   generate_transfer_id "ws1" 7000000 } := by
  refine ⟨rfl, rfl, rfl, rfl⟩

/-- C9 (amended): every successful `transfer_ownership` call appends exactly
one history entry; its timestamp field is the supplied epoch-microseconds
integer converted to an absolute point in time, and the derived transfer_id
is returned in the call's result rather than stored in the entry. -/
theorem transfer_history_append (s : ContractState)
    (workset_id from_user to_user : String) (ts : Int)
    (document_guid : Option String) (now : Int)
    (hok : isOk (transfer_ownership s workset_id from_user to_user ts
      document_guid now).1 = true) :
    (transfer_ownership s workset_id from_user to_user ts document_guid
        now).2.ownership_history
      = s.ownership_history ++
        [transferLogEntry workset_id from_user to_user
          (utcfromtimestamp_micros ts) document_guid]
    ∧ alLookup "timestamp"
        (transferLogEntry workset_id from_user to_user
          (utcfromtimestamp_micros ts) document_guid)
      = some (LogValue.timeVal (utcfromtimestamp_micros ts))
    ∧ (transfer_ownership s workset_id from_user to_user ts document_guid
        now).1
      = Except.ok { workset_id := workset_id,
                    new_owner := to_user,
                    transfer_id := generate_transfer_id workset_id ts } := by
  unfold transfer_ownership at hok ⊢
  cases h : alLookup workset_id s.workset_owners with
  | none => rw [h] at hok; simp [isOk] at hok
  | some o =>
    rw [h] at hok
    dsimp only at hok
    by_cases h1 : o ≠ from_user
    · rw [if_pos h1] at hok; simp [isOk] at hok
    · rw [if_neg h1] at hok
      by_cases h2 : hasActiveBorrows s workset_id
      · rw [if_pos h2] at hok; simp [isOk] at hok
      · simp [h1, h2, alLookup]

/-- Witness for the amended C9 at the concrete transfer of `c9transfer`. -/
theorem transfer_history_append_witness :
    (transfer_ownership
      (register_workset ContractState.init "ws1" "Structural" "alice" "d1"
        true 0).2 "ws1" "alice" "carol" 7000000 none 9).2.ownership_history
      = (register_workset ContractState.init "ws1" "Structural" "alice" "d1"
          true 0).2.ownership_history ++
        [transferLogEntry "ws1" "alice" "carol"
          (utcfromtimestamp_micros 7000000) none] :=
  (transfer_history_append
    (register_workset ContractState.init "ws1" "Structural" "alice" "d1"
      true 0).2 "ws1" "alice" "carol" 7000000 none 9 (by decide)).1

end RevitBlockchain
